import Mathlib

/-!
# Movie_site: the search-and-render logic of `src/App.jsx`

A shallow embedding of the `App` component:

* the six `useState` cells and their initial values (lines 22-27),
* `fetchMovies` (lines 42-78), as a function from the UI state before the call and
  the outcomes of the calls it awaits to the UI state after the call and the
  calls it made,
* the conditional rendering of the "All Movies" section (lines 126-138),
* the debouncing of `searchTerm` into `debouncedSearchTerm` (line 40).

JavaScript strings are sequences of UTF-16 code units.  The query is kept at that
granularity because `encodeURIComponent` inspects code units and throws a
`URIError` on an unpaired surrogate.  Texts that are only stored and displayed
(messages, titles, URLs made of ASCII characters) are Lean strings.

One invocation of `fetchMovies` is run alone and to completion: the calls it
awaits (`fetch`, `response.json()`, `updateSearchCount`) settle, with outcomes
given by an environment, and the state updates are applied in program order.
-/

namespace MovieSite

/-! ## JavaScript strings and `encodeURIComponent` -/

/-- A UTF-16 code unit. -/
abbrev CodeUnit := Fin 65536

/-- A JavaScript string value: a finite sequence of UTF-16 code units. -/
abbrev JSString := List CodeUnit

/-- The code units of a text whose characters are all in the Basic Multilingual
Plane (used for ASCII literals). -/
def JSString.ofString (s : String) : JSString :=
  s.toList.map (fun c => Fin.ofNat c.toNat)

/-- Values that a JavaScript `throw` or a rejected promise carries here. -/
inductive JSError where
  /-- Thrown by `encodeURIComponent`: `URIError: URI malformed`. -/
  | uriError
  /-- A `TypeError`: a property read on `undefined` or `null`. -/
  | typeError
  /-- The value `new Error(message)`. -/
  | error (message : String)
  /-- The rejection value of an awaited call into the environment. -/
  | rejection (reason : String)
deriving DecidableEq, Repr

deriving instance DecidableEq for Except

/-- Leading (high) surrogate: 0xD800 to 0xDBFF. -/
def isLeadingSurrogate (u : CodeUnit) : Bool :=
  decide (55296 ≤ u.val) && decide (u.val ≤ 56319)

/-- Trailing (low) surrogate: 0xDC00 to 0xDFFF. -/
def isTrailingSurrogate (u : CodeUnit) : Bool :=
  decide (56320 ≤ u.val) && decide (u.val ≤ 57343)

/-- The code units `encodeURIComponent` copies unchanged: ASCII letters and
digits and the marks `- _ . ! ~ * ' ( )`. -/
def isUnescaped (u : CodeUnit) : Bool :=
  (decide (65 ≤ u.val) && decide (u.val ≤ 90)) ||
  (decide (97 ≤ u.val) && decide (u.val ≤ 122)) ||
  (decide (48 ≤ u.val) && decide (u.val ≤ 57)) ||
  decide (u.val ∈ [45, 95, 46, 33, 126, 42, 39, 40, 41])

/-- The UTF-8 octets of a code point. -/
def utf8Octets (cp : Nat) : List Nat :=
  if cp < 128 then [cp]
  else if cp < 2048 then [192 + cp / 64, 128 + cp % 64]
  else if cp < 65536 then [224 + cp / 4096, 128 + (cp / 64) % 64, 128 + cp % 64]
  else [240 + cp / 262144, 128 + (cp / 4096) % 64, 128 + (cp / 64) % 64, 128 + cp % 64]

/-- One upper-case hexadecimal digit. -/
def hexDigit (n : Nat) : Char :=
  if n < 10 then Char.ofNat (48 + n) else Char.ofNat (55 + n)

/-- The escape sequence of one octet: a percent sign and two hexadecimal digits. -/
def percentEscape (octet : Nat) : List Char :=
  ['%', hexDigit (octet / 16), hexDigit (octet % 16)]

/-- The code point of a surrogate pair. -/
def surrogatePairToCodePoint (lead trail : CodeUnit) : Nat :=
  (lead.val - 55296) * 1024 + (trail.val - 56320) + 65536

/-- The `Encode` operation of ECMA-262 with the unescaped set of
`encodeURIComponent`: unescaped code units are copied, every other code point is
written as the escapes of its UTF-8 octets, and an unpaired surrogate throws. -/
def encodeChars : JSString → Except JSError (List Char)
  | [] => .ok []
  | c :: rest =>
    if isUnescaped c then
      (encodeChars rest).map (fun r => Char.ofNat c.val :: r)
    else if isLeadingSurrogate c then
      match rest with
      | [] => .error .uriError
      | d :: rest2 =>
        if isTrailingSurrogate d then
          (encodeChars rest2).map
            (fun r => ((utf8Octets (surrogatePairToCodePoint c d)).map percentEscape).flatten ++ r)
        else .error .uriError
    else if isTrailingSurrogate c then .error .uriError
    else
      (encodeChars rest).map (fun r => ((utf8Octets c.val).map percentEscape).flatten ++ r)

/-- The builtin `encodeURIComponent` on a string argument. -/
def encodeURIComponent (s : JSString) : Except JSError String :=
  (encodeChars s).map String.mk

/-- The builtin `String.prototype.isWellFormed`: no unpaired surrogate. -/
def isWellFormed : JSString → Bool
  | [] => true
  | c :: rest =>
    if isLeadingSurrogate c then
      match rest with
      | [] => false
      | d :: rest2 => isTrailingSurrogate d && isWellFormed rest2
    else if isTrailingSurrogate c then false
    else isWellFormed rest

/-! ## Data -/

/-- An element of the catalog's `results` array; `App` reads only `id` (as the
list key) and hands the whole object to `MovieCard` and `updateSearchCount`. -/
structure Movie where
  id : Nat
  title : String
deriving DecidableEq, Repr

/-- A document of the trending collection as `App` reads it. -/
structure TrendingMovie where
  id : String
  poster_url : String
  title : String
deriving DecidableEq, Repr

/-- The value held by the `isLoading` state cell.  The source stores the string
`'false'` at creation (line 25) and the booleans `true` and `false` afterwards
(lines 43 and 76). -/
inductive LoadingValue where
  | boolean (b : Bool)
  | string (s : String)
deriving DecidableEq, Repr

/-- JavaScript truthiness, as tested by `isLoading ? ... : ...`. -/
def LoadingValue.truthy : LoadingValue → Bool
  | .boolean b => b
  | .string s => decide (s ≠ "")

/-- The six `useState` cells of `App`. -/
structure UIState where
  searchTerm : JSString
  errorMessage : String
  movieList : List Movie
  isLoading : LoadingValue
  debouncedSearchTerm : JSString
  trendingMovies : List TrendingMovie
deriving DecidableEq, Repr

/-- The arguments of the `useState` calls, lines 22-27. -/
def initialState : UIState where
  searchTerm := []
  errorMessage := ""
  movieList := []
  isLoading := .string "false"
  debouncedSearchTerm := []
  trendingMovies := []

/-! ## The environment of `fetchMovies` -/

/-- A settled promise. -/
inductive Settled (α : Type) where
  | resolved (value : α)
  | rejected (reason : JSError)
deriving DecidableEq, Repr

/-- The fields of the parsed payload that `fetchMovies` reads, at the types of the
catalog interface: `Response` and `error` are texts and `results` is an array of
movies; `none` is an absent field.  (For `Response` any value other than the
string `false` behaves as an absent one.) -/
structure Payload where
  Response : Option String
  error : Option String
  results : Option (List Movie)
deriving DecidableEq, Repr

/-- What `response.json()` resolves with: `null`, or an object.  (A payload that
is a number, string, boolean or array has none of the three fields and behaves as
the object without fields.) -/
inductive JSONData where
  | null
  | object (data : Payload)
deriving DecidableEq, Repr

/-- The part of a `Response` that `fetchMovies` uses. -/
structure HttpResponse where
  ok : Bool
  json : Settled JSONData
deriving DecidableEq, Repr

/-- The second argument of `fetch`. -/
structure RequestOptions where
  method : String
  accept : String
  Authorization : String
deriving DecidableEq, Repr

/-- Everything outside `App.jsx` that `fetchMovies` depends on. -/
structure Env where
  /-- The content of `import.meta.env.VITE_TMDB_API_KEY`. -/
  VITE_TMDB_API_KEY : Option String
  /-- The outcome of `fetch(endpoint, options)`. -/
  fetch : String → RequestOptions → Settled HttpResponse
  /-- The outcome of `updateSearchCount(query, movie)` of `appwrite.js`. -/
  updateSearchCount : JSString → Movie → Settled Unit

/-- Line 9. -/
def API_BASE_URL : String := "https://api.themoviedb.org/3"

/-- Lines 12-18; an undefined key is interpolated as the text `undefined`. -/
def API_OPTIONS (env : Env) : RequestOptions where
  method := "GET"
  accept := "application/json"
  Authorization := "Bearer " ++ env.VITE_TMDB_API_KEY.getD "undefined"

/-- The UI state together with the calls made so far by one invocation. -/
structure Run where
  ui : UIState
  /-- Calls of `fetch`, oldest first. -/
  requests : List (String × RequestOptions)
  /-- Calls of `updateSearchCount`, oldest first. -/
  writes : List (JSString × Movie)
  /-- Values passed to `console.error`, oldest first. -/
  console : List JSError
deriving DecidableEq, Repr

/-- How a block of statements ends. -/
inductive Completion where
  | normal
  | returned
  | thrown (e : JSError)
deriving DecidableEq, Repr

def setIsLoading (v : LoadingValue) (r : Run) : Run :=
  { r with ui := { r.ui with isLoading := v } }

def setErrorMessage (v : String) (r : Run) : Run :=
  { r with ui := { r.ui with errorMessage := v } }

def setMovieList (v : List Movie) (r : Run) : Run :=
  { r with ui := { r.ui with movieList := v } }

/-- The expression `data.error || fallback`: an absent or empty text is falsy. -/
def orElse (v : Option String) (fallback : String) : String :=
  match v with
  | some s => if s ≠ "" then s else fallback
  | none => fallback

/-- Lines 46-47: the search endpoint for a truthy (non-empty) query, the
discovery endpoint otherwise. -/
def endpoint (query : JSString) : Except JSError String :=
  if query ≠ [] then
    (encodeURIComponent query).map (fun e => API_BASE_URL ++ "/search/movie?query=" ++ e)
  else
    .ok (API_BASE_URL ++ "/discover/movie?sort_by=popularity.desc")

/-- The generic text of the `catch` block, line 72. -/
def genericErrorMessage : String := "Error fetching movies. Please try again later."

/-- Lines 64-67, reached with the results already stored. -/
def recordSearch (env : Env) (query : JSString) (data : Payload) (r : Run) :
    Completion × Run :=
  if query ≠ [] then
    match data.results with
    | none => (.thrown .typeError, r)
    | some results =>
      if h : results.length > 0 then
        let first := results.get ⟨0, h⟩
        let r1 := { r with writes := r.writes ++ [(query, first)] }
        match env.updateSearchCount query first with
        | .rejected e => (.thrown e, r1)
        | .resolved _ => (.normal, r1)
      else (.normal, r)
  else (.normal, r)

/-- Lines 55-67: the statements after a response with `ok` has been received. -/
def handleBody (env : Env) (query : JSString) (body : Settled JSONData) (r : Run) :
    Completion × Run :=
  match body with
  | .rejected e => (.thrown e, r)
  | .resolved .null => (.thrown .typeError, r)
  | .resolved (.object data) =>
    if data.Response = some "false" then
      (.returned, setMovieList [] (setErrorMessage (orElse data.error "Failed to fetch movies") r))
    else
      recordSearch env query data (setMovieList (data.results.getD []) r)

/-- The `try` block, lines 46-67. -/
def tryBlock (env : Env) (query : JSString) (r : Run) : Completion × Run :=
  match endpoint query with
  | .error e => (.thrown e, r)
  | .ok url =>
    let r1 := { r with requests := r.requests ++ [(url, API_OPTIONS env)] }
    match env.fetch url (API_OPTIONS env) with
    | .rejected e => (.thrown e, r1)
    | .resolved response =>
      if !response.ok then (.thrown (.error "failed to fetch movies"), r1)
      else handleBody env query response.json r1

/-- The `catch` block, lines 70-73: runs only after a throw. -/
def catchBlock (c : Completion × Run) : Run :=
  match c with
  | (.thrown e, r) => setErrorMessage genericErrorMessage { r with console := r.console ++ [e] }
  | (_, r) => r

/-- The `finally` block, lines 74-77. -/
def finallyBlock (r : Run) : Run :=
  setIsLoading (.boolean false) r

/-- Lines 43-44: the two statements before the `try`. -/
def fetchMoviesEntry (s : UIState) : Run :=
  setErrorMessage "" (setIsLoading (.boolean true)
    { ui := s, requests := [], writes := [], console := [] })

/-- The function `fetchMovies`, lines 42-78, run to completion: every call it
awaits settles, with the outcome that `env` gives. -/
def fetchMovies (env : Env) (query : JSString) (s : UIState) : Run :=
  finallyBlock (catchBlock (tryBlock env query (fetchMoviesEntry s)))

/-! ## Rendering of the "All Movies" section -/

/-- The element `<MovieCard key=... movie=... />`. -/
structure MovieCard where
  key : Nat
  movie : Movie
deriving DecidableEq, Repr

/-- The three alternatives of lines 126-138. -/
inductive View where
  | Spinner
  | ErrorText (text : String)
  | MovieCards (cards : List MovieCard)
deriving DecidableEq, Repr

/-- Lines 126-138. -/
def allMoviesView (s : UIState) : View :=
  if s.isLoading.truthy then .Spinner
  else if s.errorMessage ≠ "" then .ErrorText s.errorMessage
  else .MovieCards (s.movieList.map (fun movie => { key := movie.id, movie := movie }))

/-! ## Debouncing of `searchTerm` (line 40)

The hook `useDebounce` comes from the package `react-use`; `App.jsx` only calls it,
with the callback `() => setDebouncedSearchTerm(searchTerm)`, the delay `500` and
the dependency list `[searchTerm]`.  Time is counted in whole milliseconds.  The
timer that the hook also starts when the component mounts stores the initial empty
string again and is left out. -/

/-- The delay passed to `useDebounce`, line 40. -/
def DEBOUNCE_DELAY : Nat := 500

/-- The two state cells involved in debouncing and the pending timer. -/
structure DebounceState where
  searchTerm : JSString
  debouncedSearchTerm : JSString
  /-- The time at which the pending timer is due, when there is one. -/
  timer : Option Nat
deriving DecidableEq, Repr

/-- The state at application start: both cells hold the empty string (lines 22
and 26) and no change is pending. -/
def DebounceState.initial : DebounceState where
  searchTerm := []
  debouncedSearchTerm := []
  timer := none

/-- Modelled from the spec: the timer half of `useDebounce` (package `react-use`,
not part of the source), section 4.1: "produces a derived value that updates to
the source's current value only after the source has remained unchanged for D ms".
A timer that is due at or before `now` runs the callback of line 40,
`setDebouncedSearchTerm(searchTerm)`. -/
def fireDue (now : Nat) (s : DebounceState) : DebounceState :=
  match s.timer with
  | some due =>
    if due ≤ now then { s with debouncedSearchTerm := s.searchTerm, timer := none } else s
  | none => s

/-- Modelled from the spec: the restart half of `useDebounce` (package `react-use`,
not part of the source), section 4.1: "each new source change resets the D-ms
timer", "one timer per pending change, cancelled and replaced on each new change".
The value of `searchTerm` changes to `change.2` at time `change.1`; a timer already
due at that time has run before it. -/
def restartTimer (s : DebounceState) (change : Nat × JSString) : DebounceState :=
  { fireDue change.1 s with
    searchTerm := change.2
    timer := some (change.1 + DEBOUNCE_DELAY) }

/-- Modelled from the spec: the call `setSearchTerm(call.2)` at time `call.1`
under the dependency list `[searchTerm]` of line 40.  A call that stores the value
`searchTerm` already holds is no change of the source: the timer of section 4.1 is
restarted only by "each new source change", so the state stays as it is. -/
def setSearchTermAt (s : DebounceState) (call : Nat × JSString) : DebounceState :=
  if call.2 = s.searchTerm then s else restartTimer s call

/-- The state after a sequence of timed calls of `setSearchTerm`, oldest first. -/
def runCalls (calls : List (Nat × JSString)) : DebounceState :=
  calls.foldl setSearchTermAt DebounceState.initial

/-- The value of `debouncedSearchTerm` observed at time `now`, given all the
timed calls of `setSearchTerm` of the session: those made up to `now` have
happened. -/
def debouncedSearchTermAt (calls : List (Nat × JSString)) (now : Nat) : JSString :=
  (fireDue now (runCalls (calls.filter (fun call => decide (call.1 ≤ now))))).debouncedSearchTerm

/-- Timed calls in the order in which they happen, at distinct times. -/
def Chronological (calls : List (Nat × JSString)) : Prop :=
  calls.Pairwise (fun a b => a.1 < b.1)

instance (calls : List (Nat × JSString)) : Decidable (Chronological calls) :=
  List.instDecidablePairwise calls

/-- The calls that change `searchTerm` when it holds `current` before the first
of them: a call is a change when its value differs from the value held at that
time. -/
def changesFrom (current : JSString) : List (Nat × JSString) → List (Nat × JSString)
  | [] => []
  | call :: rest =>
    if call.2 = current then changesFrom current rest
    else call :: changesFrom call.2 rest

/-- The timed changes of `searchTerm` in a session: the calls of `setSearchTerm`
that store a value other than the one held, starting from the empty string of
line 22. -/
def changesOf (calls : List (Nat × JSString)) : List (Nat × JSString) :=
  changesFrom [] calls

/-- The state after a sequence of timed changes, oldest first: each restarts the
timer. -/
def runChanges (changes : List (Nat × JSString)) : DebounceState :=
  changes.foldl restartTimer DebounceState.initial

/-! ## Sample values -/

/-- The query `dune`. -/
def dune : JSString := JSString.ofString "dune"

/-- The query `bat`. -/
def bat : JSString := JSString.ofString "bat"

/-- The query `batman`. -/
def batman : JSString := JSString.ofString "batman"

/-- A string that consists of one unpaired leading surrogate, U+D800. -/
def loneSurrogate : JSString := [55296]

def movieA : Movie := { id := 1, title := "Dune" }

def movieB : Movie := { id := 2, title := "Dune: Part Two" }

/-- A payload whose only field is `results`, with `movieA` and `movieB`. -/
def twoResults : Payload := { Response := none, error := none, results := some [movieA, movieB] }

/-- A UI state left by an earlier successful search. -/
def afterSearch : UIState :=
  { initialState with movieList := [movieB], isLoading := .boolean false }

/-- The catalog answers every request with the status 500. -/
def envStatus500 : Env where
  VITE_TMDB_API_KEY := some "key"
  fetch := fun _ _ => .resolved { ok := false, json := .resolved .null }
  updateSearchCount := fun _ _ => .resolved ()

/-- The request fails in transport. -/
def envNetworkDown : Env where
  VITE_TMDB_API_KEY := some "key"
  fetch := fun _ _ => .rejected (.rejection "Failed to fetch")
  updateSearchCount := fun _ _ => .resolved ()

/-- The catalog answers with `data`; the aggregation write has the outcome `write`. -/
def envAnswering (data : JSONData) (write : Settled Unit) : Env where
  VITE_TMDB_API_KEY := some "key"
  fetch := fun _ _ => .resolved { ok := true, json := .resolved data }
  updateSearchCount := fun _ _ => write

/-- A payload with the soft-error indicator, a provider message and a non-empty
results list. -/
def softErrorPayload : Payload :=
  { Response := some "false", error := some "Invalid API key", results := some [movieA] }

/-- A payload with the soft-error indicator and nothing else. -/
def bareSoftErrorPayload : Payload :=
  { Response := some "false", error := none, results := none }

/-- A payload without any of the three fields. -/
def emptyPayload : Payload :=
  { Response := none, error := none, results := none }

/-! ## `encodeURIComponent` succeeds exactly on well-formed strings -/

theorem isUnescaped_lt (c : CodeUnit) (h : isUnescaped c = true) : c.val < 128 := by
  simp only [isUnescaped, Bool.or_eq_true, Bool.and_eq_true, decide_eq_true_eq, List.mem_cons,
    List.mem_singleton, List.not_mem_nil, or_false] at h
  omega

theorem isUnescaped_of_leading (c : CodeUnit) (h : isLeadingSurrogate c = true) :
    isUnescaped c = false := by
  cases hu : isUnescaped c with
  | false => rfl
  | true =>
    have := isUnescaped_lt c hu
    simp only [isLeadingSurrogate, Bool.and_eq_true, decide_eq_true_eq] at h
    omega

theorem isUnescaped_of_trailing (c : CodeUnit) (h : isTrailingSurrogate c = true) :
    isUnescaped c = false := by
  cases hu : isUnescaped c with
  | false => rfl
  | true =>
    have := isUnescaped_lt c hu
    simp only [isTrailingSurrogate, Bool.and_eq_true, decide_eq_true_eq] at h
    omega

theorem isWellFormed_cons (c : CodeUnit) (rest : JSString)
    (hc : isLeadingSurrogate c = false) :
    isWellFormed (c :: rest) = (!isTrailingSurrogate c && isWellFormed rest) := by
  cases rest <;> cases ht : isTrailingSurrogate c <;> simp [isWellFormed, hc, ht]

theorem encodeChars_cons (c : CodeUnit) (rest : JSString)
    (hc : isLeadingSurrogate c = false) :
    encodeChars (c :: rest) =
      if isUnescaped c then (encodeChars rest).map (fun r => Char.ofNat c.val :: r)
      else if isTrailingSurrogate c then .error .uriError
      else (encodeChars rest).map (fun r => ((utf8Octets c.val).map percentEscape).flatten ++ r) := by
  cases rest <;> simp [encodeChars, hc]

theorem encodeChars_of_isWellFormed (q : JSString) :
    (isWellFormed q = true → ∃ r, encodeChars q = .ok r) ∧
    (isWellFormed q = false → encodeChars q = .error .uriError) := by
  induction q using isWellFormed.induct with
  | case1 => simp [isWellFormed, encodeChars]
  | case2 c hc =>
    simp [isWellFormed, encodeChars, hc, isUnescaped_of_leading c hc]
  | case3 c hc d rest ih =>
    have hu := isUnescaped_of_leading c hc
    cases hd : isTrailingSurrogate d with
    | false => simp [isWellFormed, encodeChars, hc, hu, hd]
    | true =>
      constructor
      · intro hw
        have hw2 : isWellFormed rest = true := by simpa [isWellFormed, hc, hd] using hw
        obtain ⟨r, hr⟩ := ih.1 hw2
        simp [encodeChars, hc, hu, hd, hr, Except.map]
      · intro hw
        have hw2 : isWellFormed rest = false := by simpa [isWellFormed, hc, hd] using hw
        simp [encodeChars, hc, hu, hd, ih.2 hw2, Except.map]
  | case4 c rest hc ht =>
    have hc : isLeadingSurrogate c = false := by simpa using hc
    simp [isWellFormed_cons c rest hc, encodeChars_cons c rest hc, ht,
      isUnescaped_of_trailing c ht]
  | case5 c rest hc ht ih =>
    have hc : isLeadingSurrogate c = false := by simpa using hc
    have ht : isTrailingSurrogate c = false := by simpa using ht
    rw [isWellFormed_cons c rest hc, encodeChars_cons c rest hc]
    constructor
    · intro hw
      have hw2 : isWellFormed rest = true := by simpa [ht] using hw
      obtain ⟨r, hr⟩ := ih.1 hw2
      cases hu : isUnescaped c <;> simp [ht, hr, Except.map]
    · intro hw
      have hw2 : isWellFormed rest = false := by simpa [ht] using hw
      cases hu : isUnescaped c <;> simp [ht, ih.2 hw2, Except.map]

theorem encodeURIComponent_of_isWellFormed (q : JSString) :
    (isWellFormed q = true → ∃ encoded, encodeURIComponent q = .ok encoded) ∧
    (isWellFormed q = false → encodeURIComponent q = .error .uriError) := by
  constructor
  · intro h
    obtain ⟨r, hr⟩ := (encodeChars_of_isWellFormed q).1 h
    exact ⟨String.mk r, by simp [encodeURIComponent, hr, Except.map]⟩
  · intro h
    simp [encodeURIComponent, (encodeChars_of_isWellFormed q).2 h, Except.map]

/-! ## `fetchMovies`, path by path

One lemma for each way through lines 42-78: the complete result of the call under
the outcomes that select the path. -/

theorem fetchMovies_of_endpoint_throws (env : Env) (query : JSString) (s : UIState) (e : JSError)
    (he : endpoint query = .error e) :
    fetchMovies env query s =
      { ui := { s with errorMessage := genericErrorMessage, isLoading := .boolean false },
        requests := [], writes := [], console := [e] } := by
  simp [fetchMovies, tryBlock, he, catchBlock, finallyBlock, fetchMoviesEntry, setErrorMessage,
    setIsLoading]

theorem fetchMovies_of_fetch_rejected (env : Env) (query : JSString) (s : UIState) (url : String)
    (e : JSError) (he : endpoint query = .ok url)
    (hf : env.fetch url (API_OPTIONS env) = .rejected e) :
    fetchMovies env query s =
      { ui := { s with errorMessage := genericErrorMessage, isLoading := .boolean false },
        requests := [(url, API_OPTIONS env)], writes := [], console := [e] } := by
  simp [fetchMovies, tryBlock, he, hf, catchBlock, finallyBlock, fetchMoviesEntry, setErrorMessage,
    setIsLoading]

theorem fetchMovies_of_not_ok (env : Env) (query : JSString) (s : UIState) (url : String)
    (response : HttpResponse) (he : endpoint query = .ok url)
    (hf : env.fetch url (API_OPTIONS env) = .resolved response) (hok : response.ok = false) :
    fetchMovies env query s =
      { ui := { s with errorMessage := genericErrorMessage, isLoading := .boolean false },
        requests := [(url, API_OPTIONS env)], writes := [],
        console := [.error "failed to fetch movies"] } := by
  simp [fetchMovies, tryBlock, he, hf, hok, catchBlock, finallyBlock, fetchMoviesEntry,
    setErrorMessage, setIsLoading]

theorem fetchMovies_of_ok (env : Env) (query : JSString) (s : UIState) (url : String)
    (response : HttpResponse) (he : endpoint query = .ok url)
    (hf : env.fetch url (API_OPTIONS env) = .resolved response) (hok : response.ok = true) :
    fetchMovies env query s =
      finallyBlock (catchBlock (handleBody env query response.json
        { ui := { s with errorMessage := "", isLoading := .boolean true },
          requests := [(url, API_OPTIONS env)], writes := [], console := [] })) := by
  simp [fetchMovies, tryBlock, he, hf, hok, fetchMoviesEntry, setErrorMessage, setIsLoading]

theorem fetchMovies_of_json_rejected (env : Env) (query : JSString) (s : UIState) (url : String)
    (response : HttpResponse) (e : JSError) (he : endpoint query = .ok url)
    (hf : env.fetch url (API_OPTIONS env) = .resolved response) (hok : response.ok = true)
    (hj : response.json = .rejected e) :
    fetchMovies env query s =
      { ui := { s with errorMessage := genericErrorMessage, isLoading := .boolean false },
        requests := [(url, API_OPTIONS env)], writes := [], console := [e] } := by
  rw [fetchMovies_of_ok env query s url response he hf hok, hj]
  simp [handleBody, catchBlock, finallyBlock, setErrorMessage, setIsLoading]

theorem fetchMovies_of_null (env : Env) (query : JSString) (s : UIState) (url : String)
    (response : HttpResponse) (he : endpoint query = .ok url)
    (hf : env.fetch url (API_OPTIONS env) = .resolved response) (hok : response.ok = true)
    (hj : response.json = .resolved .null) :
    fetchMovies env query s =
      { ui := { s with errorMessage := genericErrorMessage, isLoading := .boolean false },
        requests := [(url, API_OPTIONS env)], writes := [], console := [.typeError] } := by
  rw [fetchMovies_of_ok env query s url response he hf hok, hj]
  simp [handleBody, catchBlock, finallyBlock, setErrorMessage, setIsLoading]

theorem fetchMovies_of_soft_error (env : Env) (query : JSString) (s : UIState) (url : String)
    (response : HttpResponse) (data : Payload) (he : endpoint query = .ok url)
    (hf : env.fetch url (API_OPTIONS env) = .resolved response) (hok : response.ok = true)
    (hj : response.json = .resolved (.object data)) (hs : data.Response = some "false") :
    fetchMovies env query s =
      { ui := { s with errorMessage := orElse data.error "Failed to fetch movies",
                       movieList := [], isLoading := .boolean false },
        requests := [(url, API_OPTIONS env)], writes := [], console := [] } := by
  rw [fetchMovies_of_ok env query s url response he hf hok, hj]
  simp [handleBody, hs, catchBlock, finallyBlock, setErrorMessage, setIsLoading, setMovieList]

theorem fetchMovies_of_discovery (env : Env) (s : UIState) (url : String)
    (response : HttpResponse) (data : Payload) (he : endpoint [] = .ok url)
    (hf : env.fetch url (API_OPTIONS env) = .resolved response) (hok : response.ok = true)
    (hj : response.json = .resolved (.object data)) (hs : data.Response ≠ some "false") :
    fetchMovies env [] s =
      { ui := { s with errorMessage := "", movieList := data.results.getD [],
                       isLoading := .boolean false },
        requests := [(url, API_OPTIONS env)], writes := [], console := [] } := by
  rw [fetchMovies_of_ok env [] s url response he hf hok, hj]
  simp [handleBody, hs, recordSearch, catchBlock, finallyBlock, setIsLoading, setMovieList]

theorem fetchMovies_of_no_results (env : Env) (query : JSString) (s : UIState) (url : String)
    (response : HttpResponse) (data : Payload) (he : endpoint query = .ok url)
    (hf : env.fetch url (API_OPTIONS env) = .resolved response) (hok : response.ok = true)
    (hj : response.json = .resolved (.object data)) (hs : data.Response ≠ some "false")
    (hq : query ≠ []) (hr : data.results = none) :
    fetchMovies env query s =
      { ui := { s with errorMessage := genericErrorMessage, movieList := [],
                       isLoading := .boolean false },
        requests := [(url, API_OPTIONS env)], writes := [], console := [.typeError] } := by
  rw [fetchMovies_of_ok env query s url response he hf hok, hj]
  simp [handleBody, hs, recordSearch, hq, hr, catchBlock, finallyBlock, setIsLoading,
    setMovieList, setErrorMessage]

theorem fetchMovies_of_empty_results (env : Env) (query : JSString) (s : UIState) (url : String)
    (response : HttpResponse) (data : Payload) (he : endpoint query = .ok url)
    (hf : env.fetch url (API_OPTIONS env) = .resolved response) (hok : response.ok = true)
    (hj : response.json = .resolved (.object data)) (hs : data.Response ≠ some "false")
    (hr : data.results = some []) :
    fetchMovies env query s =
      { ui := { s with errorMessage := "", movieList := [], isLoading := .boolean false },
        requests := [(url, API_OPTIONS env)], writes := [], console := [] } := by
  rw [fetchMovies_of_ok env query s url response he hf hok, hj]
  simp [handleBody, hs, recordSearch, hr, catchBlock, finallyBlock, setIsLoading,
    setMovieList]

theorem fetchMovies_of_write_resolved (env : Env) (query : JSString) (s : UIState) (url : String)
    (response : HttpResponse) (data : Payload) (first : Movie) (rest : List Movie)
    (he : endpoint query = .ok url)
    (hf : env.fetch url (API_OPTIONS env) = .resolved response) (hok : response.ok = true)
    (hj : response.json = .resolved (.object data)) (hs : data.Response ≠ some "false")
    (hq : query ≠ []) (hr : data.results = some (first :: rest))
    (hw : env.updateSearchCount query first = .resolved ()) :
    fetchMovies env query s =
      { ui := { s with errorMessage := "", movieList := first :: rest,
                       isLoading := .boolean false },
        requests := [(url, API_OPTIONS env)], writes := [(query, first)], console := [] } := by
  rw [fetchMovies_of_ok env query s url response he hf hok, hj]
  simp [handleBody, hs, recordSearch, hq, hr, hw, catchBlock, finallyBlock, setIsLoading,
    setMovieList]

theorem fetchMovies_of_write_rejected (env : Env) (query : JSString) (s : UIState) (url : String)
    (response : HttpResponse) (data : Payload) (first : Movie) (rest : List Movie) (e : JSError)
    (he : endpoint query = .ok url)
    (hf : env.fetch url (API_OPTIONS env) = .resolved response) (hok : response.ok = true)
    (hj : response.json = .resolved (.object data)) (hs : data.Response ≠ some "false")
    (hq : query ≠ []) (hr : data.results = some (first :: rest))
    (hw : env.updateSearchCount query first = .rejected e) :
    fetchMovies env query s =
      { ui := { s with errorMessage := genericErrorMessage, movieList := first :: rest,
                       isLoading := .boolean false },
        requests := [(url, API_OPTIONS env)], writes := [(query, first)], console := [e] } := by
  rw [fetchMovies_of_ok env query s url response he hf hok, hj]
  simp [handleBody, hs, recordSearch, hq, hr, hw, catchBlock, finallyBlock, setIsLoading,
    setMovieList, setErrorMessage]

/-! ## The claims about `fetchMovies` -/

/-- A rejected request and a response without `ok` leave `movieList` as it was
and show the generic text. -/
theorem fetchMovies_hardError (env : Env) (query : JSString) (s : UIState) (url : String)
    (he : endpoint query = .ok url)
    (hf : (∃ e, env.fetch url (API_OPTIONS env) = .rejected e) ∨
      ∃ response, env.fetch url (API_OPTIONS env) = .resolved response ∧ response.ok = false) :
    (fetchMovies env query s).ui.errorMessage = genericErrorMessage ∧
    (fetchMovies env query s).ui.movieList = s.movieList ∧
    (fetchMovies env query s).writes = [] := by
  rcases hf with ⟨e, hf⟩ | ⟨response, hf, hok⟩
  · rw [fetchMovies_of_fetch_rejected env query s url e he hf]
    exact ⟨rfl, rfl, rfl⟩
  · rw [fetchMovies_of_not_ok env query s url response he hf hok]
    exact ⟨rfl, rfl, rfl⟩

/-- C1, evaluated on the code: after a search that left `movieB` in `movieList`,
a call for `dune` that is answered with status 500, and one whose request fails in
transport, both end with the generic error text and with `movieList` still
holding `movieB`: the `catch` block does not clear the results. -/
theorem hardError_keeps_movieList :
    (fetchMovies envStatus500 dune afterSearch).ui.errorMessage
      = "Error fetching movies. Please try again later." ∧
    (fetchMovies envStatus500 dune afterSearch).ui.movieList = [movieB] ∧
    (fetchMovies envStatus500 dune afterSearch).ui.movieList ≠ [] ∧
    (fetchMovies envNetworkDown dune afterSearch).ui.errorMessage
      = "Error fetching movies. Please try again later." ∧
    (fetchMovies envNetworkDown dune afterSearch).ui.movieList = [movieB] ∧
    (fetchMovies envNetworkDown dune afterSearch).ui.movieList ≠ [] := by
  decide

/-- C2, evaluated on the code: the query `dune` is answered with status `ok` and
the payload `twoResults` (no soft-error indicator, two results).  When
`updateSearchCount` resolves the call ends in the Success state; when it rejects
the call ends with `movieList` equal to the results but with `errorMessage` set to
the generic text, not empty: the rejection of the write reaches the `catch` block
of the search. -/
theorem rejected_write_sets_errorMessage :
    dune ≠ [] ∧ twoResults.Response ≠ some "false" ∧
    twoResults.results = some [movieA, movieB] ∧
    (fetchMovies (envAnswering (.object twoResults) (.resolved ())) dune
      afterSearch).ui.movieList = [movieA, movieB] ∧
    (fetchMovies (envAnswering (.object twoResults) (.resolved ())) dune
      afterSearch).ui.errorMessage = "" ∧
    (fetchMovies (envAnswering (.object twoResults) (.rejected (.rejection "store unavailable")))
      dune afterSearch).ui.movieList = [movieA, movieB] ∧
    (fetchMovies (envAnswering (.object twoResults) (.rejected (.rejection "store unavailable")))
      dune afterSearch).ui.errorMessage = "Error fetching movies. Please try again later." ∧
    (fetchMovies (envAnswering (.object twoResults) (.rejected (.rejection "store unavailable")))
      dune afterSearch).ui.errorMessage ≠ "" := by
  decide

/-- C3: one invocation of `fetchMovies` calls `updateSearchCount` at most once; it
calls it with `(q, m)` exactly when `q` is the query, the query is non-empty, and
the request it issued was answered with status `ok` by a payload without
soft-error indicator whose results list is non-empty with first element `m`.
An empty query makes no call, and a response without `ok` makes no call. -/
theorem updateSearchCount_called_iff (env : Env) (query : JSString) (s : UIState) :
    (fetchMovies env query s).writes.length ≤ 1 ∧
    (∀ q m, (q, m) ∈ (fetchMovies env query s).writes ↔
      (q = query ∧ query ≠ [] ∧ ∃ url response data rest,
        endpoint query = .ok url ∧
        env.fetch url (API_OPTIONS env) = .resolved response ∧ response.ok = true ∧
        response.json = .resolved (.object data) ∧ data.Response ≠ some "false" ∧
        data.results = some (m :: rest))) ∧
    (query = [] → (fetchMovies env query s).writes = []) ∧
    (∀ url response, endpoint query = .ok url →
      env.fetch url (API_OPTIONS env) = .resolved response → response.ok = false →
      (fetchMovies env query s).writes = []) := by
  have key : (fetchMovies env query s).writes = [] ∨
      (query ≠ [] ∧ ∃ url response data first rest,
        endpoint query = .ok url ∧
        env.fetch url (API_OPTIONS env) = .resolved response ∧ response.ok = true ∧
        response.json = .resolved (.object data) ∧ data.Response ≠ some "false" ∧
        data.results = some (first :: rest) ∧
        (fetchMovies env query s).writes = [(query, first)]) := by
    cases he : endpoint query with
    | error e => left; rw [fetchMovies_of_endpoint_throws env query s e he]
    | ok url =>
      cases hf : env.fetch url (API_OPTIONS env) with
      | rejected e => left; rw [fetchMovies_of_fetch_rejected env query s url e he hf]
      | resolved response =>
        cases hok : response.ok with
        | false => left; rw [fetchMovies_of_not_ok env query s url response he hf hok]
        | true =>
          cases hj : response.json with
          | rejected e =>
            left; rw [fetchMovies_of_json_rejected env query s url response e he hf hok hj]
          | resolved body =>
            cases body with
            | null => left; rw [fetchMovies_of_null env query s url response he hf hok hj]
            | object data =>
              by_cases hs : data.Response = some "false"
              · left
                rw [fetchMovies_of_soft_error env query s url response data he hf hok hj hs]
              · by_cases hq : query = []
                · subst hq
                  left
                  rw [fetchMovies_of_discovery env s url response data he hf hok hj hs]
                · cases hr : data.results with
                  | none =>
                    left
                    rw [fetchMovies_of_no_results env query s url response data he hf hok hj hs
                      hq hr]
                  | some results =>
                    cases results with
                    | nil =>
                      left
                      rw [fetchMovies_of_empty_results env query s url response data he hf hok
                        hj hs hr]
                    | cons first rest =>
                      right
                      refine ⟨hq, url, response, data, first, rest, rfl, hf, hok, hj, hs, hr, ?_⟩
                      cases hw : env.updateSearchCount query first with
                      | resolved u =>
                        rw [fetchMovies_of_write_resolved env query s url response data first
                          rest he hf hok hj hs hq hr hw]
                      | rejected e =>
                        rw [fetchMovies_of_write_rejected env query s url response data first
                          rest e he hf hok hj hs hq hr hw]
  refine ⟨?_, ?_, ?_, ?_⟩
  · rcases key with h | ⟨_, _, _, _, _, _, _, _, _, _, _, _, h⟩ <;> simp [h]
  · intro q m
    constructor
    · intro hm
      rcases key with h | ⟨hq, url, response, data, first, rest, he, hf, hok, hj, hs, hr, h⟩
      · simp [h] at hm
      · rw [h] at hm
        simp only [List.mem_singleton, Prod.mk.injEq] at hm
        obtain ⟨rfl, rfl⟩ := hm
        exact ⟨rfl, hq, url, response, data, rest, he, hf, hok, hj, hs, hr⟩
    · rintro ⟨rfl, hq, url, response, data, rest, he, hf, hok, hj, hs, hr⟩
      cases hw : env.updateSearchCount q m with
      | resolved u =>
        rw [fetchMovies_of_write_resolved env q s url response data m rest he hf hok hj hs hq
          hr hw]
        simp
      | rejected e =>
        rw [fetchMovies_of_write_rejected env q s url response data m rest e he hf hok hj hs
          hq hr hw]
        simp
  · intro hq
    rcases key with h | ⟨hq2, _⟩
    · exact h
    · exact absurd hq hq2
  · intro url response he hf hok
    rw [fetchMovies_of_not_ok env query s url response he hf hok]

/-- C3 at the query `dune` answered with `twoResults`: the one call made is
`updateSearchCount(dune, movieA)`. -/
theorem updateSearchCount_called_iff_witness :
    (fetchMovies (envAnswering (.object twoResults) (.resolved ())) dune afterSearch).writes.length
      ≤ 1 ∧
    (dune, movieA) ∈
      (fetchMovies (envAnswering (.object twoResults) (.resolved ())) dune afterSearch).writes ∧
    (fetchMovies (envAnswering (.object twoResults) (.resolved ())) [] afterSearch).writes = [] ∧
    (fetchMovies envStatus500 dune afterSearch).writes = [] :=
  have h := updateSearchCount_called_iff (envAnswering (.object twoResults) (.resolved ())) dune
    afterSearch
  ⟨h.1,
   (h.2.1 dune movieA).2 ⟨rfl, by decide,
     "https://api.themoviedb.org/3/search/movie?query=dune",
     { ok := true, json := .resolved (.object twoResults) }, twoResults, [movieB],
     by decide, rfl, rfl, rfl, by decide, rfl⟩,
   (updateSearchCount_called_iff (envAnswering (.object twoResults) (.resolved ())) []
     afterSearch).2.2.1 rfl,
   (updateSearchCount_called_iff envStatus500 dune afterSearch).2.2.2
     "https://api.themoviedb.org/3/search/movie?query=dune"
     { ok := false, json := .resolved .null } (by decide) rfl rfl⟩

/-- C4: when the request is answered with status `ok` by a payload whose
`Response` field is the string `false`, `fetchMovies` ends with `errorMessage`
equal to the payload's `error` field when that is present and non-empty and to
`Failed to fetch movies` otherwise, with `movieList` empty and without a call of
`updateSearchCount`, whatever the payload's results list holds. -/
theorem softError_transition (env : Env) (query : JSString) (s : UIState) (url : String)
    (response : HttpResponse) (data : Payload) (he : endpoint query = .ok url)
    (hf : env.fetch url (API_OPTIONS env) = .resolved response) (hok : response.ok = true)
    (hj : response.json = .resolved (.object data)) (hs : data.Response = some "false") :
    (∀ text, data.error = some text → text ≠ "" →
      (fetchMovies env query s).ui.errorMessage = text) ∧
    (data.error = none ∨ data.error = some "" →
      (fetchMovies env query s).ui.errorMessage = "Failed to fetch movies") ∧
    (fetchMovies env query s).ui.movieList = [] ∧
    (fetchMovies env query s).writes = [] ∧
    (fetchMovies env query s).ui.isLoading = .boolean false := by
  rw [fetchMovies_of_soft_error env query s url response data he hf hok hj hs]
  refine ⟨?_, ?_, rfl, rfl, rfl⟩
  · intro text ht hne
    simp [orElse, ht, hne]
  · rintro (h | h) <;> simp [orElse, h]

/-- C4 at the query `dune` and two payloads that carry the soft-error indicator:
one with a provider message and a non-empty results list, one without message. -/
theorem softError_transition_witness :
    (fetchMovies (envAnswering (.object softErrorPayload) (.resolved ())) dune
      afterSearch).ui.errorMessage = "Invalid API key" ∧
    (fetchMovies (envAnswering (.object softErrorPayload) (.resolved ())) dune
      afterSearch).ui.movieList = [] ∧
    (fetchMovies (envAnswering (.object softErrorPayload) (.resolved ())) dune
      afterSearch).writes = [] ∧
    (fetchMovies (envAnswering (.object bareSoftErrorPayload) (.resolved ())) dune
      afterSearch).ui.errorMessage = "Failed to fetch movies" :=
  have h := softError_transition (envAnswering (.object softErrorPayload) (.resolved ())) dune
    afterSearch "https://api.themoviedb.org/3/search/movie?query=dune"
    { ok := true, json := .resolved (.object softErrorPayload) } softErrorPayload
    (by decide) rfl rfl rfl rfl
  have h2 := softError_transition (envAnswering (.object bareSoftErrorPayload) (.resolved ()))
    dune afterSearch "https://api.themoviedb.org/3/search/movie?query=dune"
    { ok := true, json := .resolved (.object bareSoftErrorPayload) } bareSoftErrorPayload
    (by decide) rfl rfl rfl rfl
  ⟨h.1 "Invalid API key" rfl (by decide), h.2.2.1, h.2.2.2.1, h2.2.1 (Or.inl rfl)⟩

/-- C5 as stated fails: the non-empty query that consists of one unpaired
surrogate makes `encodeURIComponent` throw inside the `try` block, so
`fetchMovies` issues no request at all and ends in the generic error text. -/
theorem unpaired_surrogate_issues_no_request :
    loneSurrogate ≠ [] ∧
    encodeURIComponent loneSurrogate = .error .uriError ∧
    (fetchMovies (envAnswering (.object twoResults) (.resolved ())) loneSurrogate
      afterSearch).requests = [] ∧
    (fetchMovies (envAnswering (.object twoResults) (.resolved ())) loneSurrogate
      afterSearch).ui.errorMessage = "Error fetching movies. Please try again later." := by
  decide

/-- C5, amended: for the empty query `fetchMovies` issues exactly one request, to
the discovery endpoint; for a non-empty query that is a well-formed UTF-16 string
it issues exactly one request, to the search endpoint followed by
`encodeURIComponent(q)`; for a non-empty query with an unpaired surrogate
`encodeURIComponent` throws and no request is issued. -/
theorem endpoint_selection (env : Env) (s : UIState) :
    (fetchMovies env [] s).requests =
      [("https://api.themoviedb.org/3/discover/movie?sort_by=popularity.desc",
        API_OPTIONS env)] ∧
    ∀ q : JSString, q ≠ [] →
      (isWellFormed q = true → ∃ encoded, encodeURIComponent q = .ok encoded ∧
        (fetchMovies env q s).requests =
          [("https://api.themoviedb.org/3/search/movie?query=" ++ encoded, API_OPTIONS env)]) ∧
      (isWellFormed q = false → encodeURIComponent q = .error .uriError ∧
        (fetchMovies env q s).requests = []) := by
  have requests_of_ok : ∀ (q : JSString) (url : String), endpoint q = .ok url →
      (fetchMovies env q s).requests = [(url, API_OPTIONS env)] := by
    intro q url he
    cases hf : env.fetch url (API_OPTIONS env) with
    | rejected e => rw [fetchMovies_of_fetch_rejected env q s url e he hf]
    | resolved response =>
      cases hok : response.ok with
      | false => rw [fetchMovies_of_not_ok env q s url response he hf hok]
      | true =>
        rw [fetchMovies_of_ok env q s url response he hf hok]
        cases hj : response.json with
        | rejected e => rfl
        | resolved body =>
          cases body with
          | null => rfl
          | object data =>
            by_cases hs : data.Response = some "false"
            · simp [handleBody, hs, catchBlock, finallyBlock, setIsLoading, setMovieList,
                setErrorMessage]
            · simp only [handleBody, hs, if_false, recordSearch]
              by_cases hq : q = []
              · simp [hq, catchBlock, finallyBlock, setIsLoading, setMovieList]
              · cases hr : data.results with
                | none =>
                  simp [hq, catchBlock, finallyBlock, setIsLoading, setMovieList,
                    setErrorMessage]
                | some results =>
                  cases results with
                  | nil => simp [hq, catchBlock, finallyBlock, setIsLoading, setMovieList]
                  | cons first rest =>
                    cases hw : env.updateSearchCount q first <;>
                      simp [hq, hw, catchBlock, finallyBlock, setIsLoading, setMovieList,
                        setErrorMessage]
  refine ⟨requests_of_ok [] _ (by decide), ?_⟩
  intro q hq
  constructor
  · intro hw
    obtain ⟨encoded, henc⟩ := (encodeURIComponent_of_isWellFormed q).1 hw
    refine ⟨encoded, henc, requests_of_ok q _ ?_⟩
    simp [endpoint, hq, henc, Except.map, API_BASE_URL]
  · intro hw
    have henc := (encodeURIComponent_of_isWellFormed q).2 hw
    refine ⟨henc, ?_⟩
    rw [fetchMovies_of_endpoint_throws env q s .uriError
      (by simp [endpoint, hq, henc, Except.map])]

/-- The amended C5 at the queries `dune` and `loneSurrogate`. -/
theorem endpoint_selection_witness :
    (fetchMovies envStatus500 dune afterSearch).requests =
      [("https://api.themoviedb.org/3/search/movie?query=dune", API_OPTIONS envStatus500)] ∧
    (fetchMovies envStatus500 loneSurrogate afterSearch).requests = [] :=
  have h := (endpoint_selection envStatus500 afterSearch).2
  ⟨by
    obtain ⟨encoded, henc, hreq⟩ := (h dune (by decide)).1 (by decide)
    have : encoded = "dune" := by
      have h2 : encodeURIComponent dune = .ok "dune" := by decide
      rw [h2] at henc
      exact (Except.ok.inj henc).symm
    rw [hreq, this]
    rfl,
   ((h loneSurrogate (by decide)).2 (by decide)).2⟩

/-- The rendering of lines 126-138 on a state whose `isLoading` is a boolean:
the spinner for `true`, whatever the other cells hold; for `false` the error text
when `errorMessage` is non-empty and otherwise one card per movie, in order. -/
theorem allMoviesView_of_boolean (s : UIState) (b : Bool) (h : s.isLoading = .boolean b) :
    (b = true → allMoviesView s = .Spinner) ∧
    (b = false → s.errorMessage ≠ "" → allMoviesView s = .ErrorText s.errorMessage) ∧
    (b = false → s.errorMessage = "" →
      allMoviesView s = .MovieCards (s.movieList.map (fun movie => ⟨movie.id, movie⟩))) := by
  refine ⟨?_, ?_, ?_⟩ <;> intros <;> simp_all [allMoviesView, LoadingValue.truthy]

/-- C6, evaluated on the code: in the state created at application start
`isLoading` is not `true` (it is the string `false`), `errorMessage` is empty and
`movieList` is empty, and the view chosen is the loading indicator, not the
(empty) results list. -/
theorem initialState_renders_spinner :
    initialState.isLoading ≠ .boolean true ∧
    initialState.errorMessage = "" ∧
    initialState.movieList = [] ∧
    allMoviesView initialState = .Spinner ∧
    allMoviesView initialState ≠ .MovieCards [] := by
  decide

/-- C7, evaluated on the code: the state created at application start has empty
`searchTerm`, `debouncedSearchTerm`, `movieList`, `errorMessage` and
`trendingMovies`, but its `isLoading` is the string `false`, not the boolean:
it is truthy, and the rendering selects the loading indicator. -/
theorem initialState_isLoading_is_string :
    initialState.searchTerm = [] ∧
    initialState.debouncedSearchTerm = [] ∧
    initialState.movieList = [] ∧
    initialState.errorMessage = "" ∧
    initialState.trendingMovies = [] ∧
    initialState.isLoading = .string "false" ∧
    initialState.isLoading ≠ .boolean false ∧
    initialState.isLoading.truthy = true ∧
    allMoviesView initialState = .Spinner := by
  decide

/-- C8: `fetchMovies` starts by setting `isLoading` to `true` and `errorMessage`
to the empty string, leaving the other cells alone, runs the `try`, `catch` and
`finally` blocks from that state, and for every query, every prior state and
every outcome of the calls it awaits it ends with `isLoading` equal to `false`. -/
theorem loading_always_settles (env : Env) (query : JSString) (s : UIState) :
    (fetchMoviesEntry s).ui = { s with isLoading := .boolean true, errorMessage := "" } ∧
    fetchMovies env query s =
      finallyBlock (catchBlock (tryBlock env query (fetchMoviesEntry s))) ∧
    (fetchMovies env query s).ui.isLoading = .boolean false :=
  ⟨rfl, rfl, rfl⟩

/-- C10: when the request is answered with status `ok` by a payload without
soft-error indicator and without `results` field, `fetchMovies` ends with
`movieList` empty and without a call of `updateSearchCount`; for the empty query
`errorMessage` ends empty; for a non-empty query the read of `length` throws a
`TypeError` inside the `try` block and `errorMessage` ends as the generic text. -/
theorem payload_without_results (env : Env) (query : JSString) (s : UIState) (url : String)
    (response : HttpResponse) (data : Payload) (he : endpoint query = .ok url)
    (hf : env.fetch url (API_OPTIONS env) = .resolved response) (hok : response.ok = true)
    (hj : response.json = .resolved (.object data)) (hs : data.Response ≠ some "false")
    (hr : data.results = none) :
    (fetchMovies env query s).ui.movieList = [] ∧
    (fetchMovies env query s).writes = [] ∧
    (query = [] → (fetchMovies env query s).ui.errorMessage = "" ∧
      (fetchMovies env query s).console = []) ∧
    (query ≠ [] →
      (fetchMovies env query s).ui.errorMessage
        = "Error fetching movies. Please try again later." ∧
      (fetchMovies env query s).console = [.typeError]) := by
  by_cases hq : query = []
  · subst hq
    rw [fetchMovies_of_discovery env s url response data he hf hok hj hs, hr]
    exact ⟨rfl, rfl, fun _ => ⟨rfl, rfl⟩, fun h => absurd rfl h⟩
  · rw [fetchMovies_of_no_results env query s url response data he hf hok hj hs hq hr]
    exact ⟨rfl, rfl, fun h => absurd h hq, fun _ => ⟨rfl, rfl⟩⟩

/-- C10 at the payload without fields, for the empty query and for `dune`. -/
theorem payload_without_results_witness :
    (fetchMovies (envAnswering (.object emptyPayload) (.resolved ())) [] afterSearch).ui.movieList
      = [] ∧
    (fetchMovies (envAnswering (.object emptyPayload) (.resolved ())) [] afterSearch).ui.errorMessage
      = "" ∧
    (fetchMovies (envAnswering (.object emptyPayload) (.resolved ())) dune
      afterSearch).ui.movieList = [] ∧
    (fetchMovies (envAnswering (.object emptyPayload) (.resolved ())) dune
      afterSearch).ui.errorMessage = "Error fetching movies. Please try again later." ∧
    (fetchMovies (envAnswering (.object emptyPayload) (.resolved ())) dune
      afterSearch).writes = [] :=
  have h0 := payload_without_results (envAnswering (.object emptyPayload) (.resolved ())) []
    afterSearch "https://api.themoviedb.org/3/discover/movie?sort_by=popularity.desc"
    { ok := true, json := .resolved (.object emptyPayload) } emptyPayload
    (by decide) rfl rfl rfl (by decide) rfl
  have h1 := payload_without_results (envAnswering (.object emptyPayload) (.resolved ())) dune
    afterSearch "https://api.themoviedb.org/3/search/movie?query=dune"
    { ok := true, json := .resolved (.object emptyPayload) } emptyPayload
    (by decide) rfl rfl rfl (by decide) rfl
  ⟨h0.1, (h0.2.2.1 rfl).1, h1.1, (h1.2.2.2 (by decide)).1, h1.2.1⟩

/-! ## Debouncing -/

theorem runChanges_concat (pre : List (Nat × JSString)) (c : Nat × JSString) :
    runChanges (pre ++ [c]) = restartTimer (runChanges pre) c := by
  simp [runChanges, List.foldl_append]

/-- What an observer sees after the last change `(t, v)`: the value `v` once the
delay has elapsed, and before that whatever was visible when the change was made. -/
theorem fireDue_runChanges_concat (pre : List (Nat × JSString)) (t : Nat) (v : JSString)
    (now : Nat) :
    (fireDue now (runChanges (pre ++ [(t, v)]))).debouncedSearchTerm =
      if t + DEBOUNCE_DELAY ≤ now then v
      else (fireDue t (runChanges pre)).debouncedSearchTerm := by
  rw [runChanges_concat]
  by_cases h : t + DEBOUNCE_DELAY ≤ now
  · simp [restartTimer, fireDue, h]
  · simp [restartTimer, fireDue, h]

/-- After changes only, the visible value is the initial empty string or the
value of a change that was followed by a full delay without another change. -/
theorem fireDue_runChanges_settled (changes : List (Nat × JSString)) :
    ∀ now : Nat, Chronological changes → (∀ c ∈ changes, c.1 ≤ now) →
      (fireDue now (runChanges changes)).debouncedSearchTerm = [] ∨
      ∃ c ∈ changes, (fireDue now (runChanges changes)).debouncedSearchTerm = c.2 ∧
        c.1 + DEBOUNCE_DELAY ≤ now ∧
        ∀ d ∈ changes, ¬ (c.1 < d.1 ∧ d.1 < c.1 + DEBOUNCE_DELAY) := by
  induction changes using List.reverseRecOn with
  | nil => intro now _ _; left; rfl
  | append_singleton pre last ih =>
    obtain ⟨t, v⟩ := last
    intro now hchron hle
    have hpre : Chronological pre := (List.pairwise_append.1 hchron).1
    have hlt : ∀ c ∈ pre, c.1 < t := fun c hc =>
      (List.pairwise_append.1 hchron).2.2 c hc (t, v) (List.mem_singleton.2 rfl)
    rw [fireDue_runChanges_concat]
    by_cases h : t + DEBOUNCE_DELAY ≤ now
    · right
      refine ⟨(t, v), by simp, by simp [h], h, ?_⟩
      intro d hd
      rcases List.mem_append.1 hd with hd | hd
      · have := hlt d hd
        simp only [not_and]; intro h1; omega
      · rw [List.mem_singleton.1 hd]
        simp
    · simp only [h, if_false]
      rcases ih t hpre (fun c hc => le_of_lt (hlt c hc)) with h0 | ⟨c, hc, hv, hdue, hquiet⟩
      · left; exact h0
      · right
        refine ⟨c, List.mem_append_left _ hc, hv, ?_, ?_⟩
        · have := hle (t, v) (by simp)
          simp only at this
          omega
        · intro d hd
          rcases List.mem_append.1 hd with hd | hd
          · exact hquiet d hd
          · rw [List.mem_singleton.1 hd]
            simp only [not_and]; intro _; omega

/-- In a chronological list an element that no other element follows in time is
the last one. -/
theorem Chronological.eq_concat_of_latest (changes : List (Nat × JSString))
    (h : Chronological changes) (c : Nat × JSString) (hc : c ∈ changes)
    (hmax : ∀ d ∈ changes, d.1 ≤ c.1) : ∃ pre, changes = pre ++ [c] := by
  induction changes using List.reverseRecOn with
  | nil => simp at hc
  | append_singleton pre last _ =>
    rcases List.mem_append.1 hc with hc | hc
    · have h1 := (List.pairwise_append.1 h).2.2 c hc last (List.mem_singleton.2 rfl)
      have h2 := hmax last (by simp)
      omega
    · exact ⟨pre, by rw [List.mem_singleton.1 hc]⟩

/-- Calls that store the value already held leave the state alone, so a run of
calls is the run of the changes among them. -/
theorem foldl_setSearchTermAt (calls : List (Nat × JSString)) :
    ∀ s : DebounceState,
      calls.foldl setSearchTermAt s = (changesFrom s.searchTerm calls).foldl restartTimer s := by
  induction calls with
  | nil => intro s; rfl
  | cons call rest ih =>
    intro s
    by_cases h : call.2 = s.searchTerm
    · simp [List.foldl_cons, setSearchTermAt, changesFrom, h, ih]
    · have hs : (restartTimer s call).searchTerm = call.2 := rfl
      simp only [List.foldl_cons, setSearchTermAt, changesFrom, h, if_false]
      rw [ih, hs]

theorem runCalls_eq_runChanges (calls : List (Nat × JSString)) :
    runCalls calls = runChanges (changesOf calls) :=
  foldl_setSearchTermAt calls DebounceState.initial

theorem changesFrom_sublist (calls : List (Nat × JSString)) :
    ∀ current : JSString, (changesFrom current calls).Sublist calls := by
  induction calls with
  | nil => intro _; exact List.Sublist.slnil
  | cons call rest ih =>
    intro current
    by_cases h : call.2 = current
    · simp only [changesFrom, h, if_true]
      exact List.Sublist.cons _ (ih _)
    · simp only [changesFrom, h, if_false]
      exact List.Sublist.cons₂ _ (ih _)

/-- The changes among the calls made up to `now` are the changes made up to `now`. -/
theorem changesFrom_filter (now : Nat) (calls : List (Nat × JSString)) :
    ∀ current : JSString, Chronological calls →
      changesFrom current (calls.filter (fun call => decide (call.1 ≤ now))) =
        (changesFrom current calls).filter (fun call => decide (call.1 ≤ now)) := by
  induction calls with
  | nil => intro _ _; rfl
  | cons call rest ih =>
    intro current hchron
    have hrest : Chronological rest := (List.pairwise_cons.1 hchron).2
    have hlater : ∀ d ∈ rest, call.1 < d.1 := (List.pairwise_cons.1 hchron).1
    by_cases hnow : call.1 ≤ now
    · by_cases h : call.2 = current
      · simp [List.filter_cons, hnow, changesFrom, h, ih _ hrest]
      · simp [List.filter_cons, hnow, changesFrom, h, ih _ hrest]
    · have hnone : ∀ d ∈ call :: rest, ¬ d.1 ≤ now := by
        intro d hd
        rcases List.mem_cons.1 hd with rfl | hd
        · exact hnow
        · have := hlater d hd
          omega
      have h1 : (call :: rest).filter (fun call => decide (call.1 ≤ now)) = [] :=
        List.filter_eq_nil_iff.2 (fun d hd => by simpa using hnone d hd)
      have h2 : (changesFrom current (call :: rest)).filter
          (fun call => decide (call.1 ≤ now)) = [] :=
        List.filter_eq_nil_iff.2 (fun d hd => by
          simpa using hnone d ((changesFrom_sublist _ _).subset hd))
      rw [h1, h2]
      rfl

/-- The value observed at `now` is the value observed after the changes made up
to `now`. -/
theorem debouncedSearchTermAt_eq (calls : List (Nat × JSString)) (now : Nat)
    (h : Chronological calls) :
    debouncedSearchTermAt calls now =
      (fireDue now (runChanges
        ((changesOf calls).filter (fun call => decide (call.1 ≤ now))))).debouncedSearchTerm := by
  unfold debouncedSearchTermAt
  rw [runCalls_eq_runChanges]
  unfold changesOf
  rw [changesFrom_filter now calls [] h]

/-- C9: for every chronological sequence of timed calls of `setSearchTerm`, whose
changes of `searchTerm` are `changesOf calls`, and the delay of 500 ms:
(1) when a change to `v` is the latest change up to the time `now` and 500 ms have
elapsed since it, `debouncedSearchTerm` is `v` at `now`;
(2) at every time `debouncedSearchTerm` is the initial empty string or the value
of a change that was not followed by another change within 500 ms: a change that
was followed within 500 ms by another is never the one shown;
(3) so a non-empty value whose every change to it was followed within 500 ms by
another change is never the value of `debouncedSearchTerm`. -/
theorem debounce_emits_settled_values (calls : List (Nat × JSString))
    (h : Chronological calls) :
    (∀ c ∈ changesOf calls, ∀ now : Nat, c.1 + 500 ≤ now →
      (∀ d ∈ changesOf calls, d.1 ≤ c.1 ∨ now < d.1) →
      debouncedSearchTermAt calls now = c.2) ∧
    (∀ now : Nat, debouncedSearchTermAt calls now = [] ∨
      ∃ c ∈ changesOf calls, debouncedSearchTermAt calls now = c.2 ∧ c.1 + 500 ≤ now ∧
        ∀ d ∈ changesOf calls, ¬ (c.1 < d.1 ∧ d.1 < c.1 + 500)) ∧
    (∀ v : JSString, v ≠ [] →
      (∀ c ∈ changesOf calls, c.2 = v → ∃ d ∈ changesOf calls, c.1 < d.1 ∧ d.1 < c.1 + 500) →
      ∀ now : Nat, debouncedSearchTermAt calls now ≠ v) := by
  have hchanges : Chronological (changesOf calls) :=
    List.Pairwise.sublist (changesFrom_sublist calls []) h
  have hsub : ∀ now : Nat,
      Chronological ((changesOf calls).filter (fun call => decide (call.1 ≤ now))) :=
    fun now => List.Pairwise.filter _ hchanges
  have settled : ∀ now : Nat, debouncedSearchTermAt calls now = [] ∨
      ∃ c ∈ changesOf calls, debouncedSearchTermAt calls now = c.2 ∧ c.1 + 500 ≤ now ∧
        ∀ d ∈ changesOf calls, ¬ (c.1 < d.1 ∧ d.1 < c.1 + 500) := by
    intro now
    rw [debouncedSearchTermAt_eq calls now h]
    rcases fireDue_runChanges_settled _ now (hsub now)
        (fun c hc => by simpa using (List.mem_filter.1 hc).2) with h0 | ⟨c, hc, hv, hdue, hq⟩
    · left; exact h0
    · right
      refine ⟨c, (List.mem_filter.1 hc).1, hv, hdue, ?_⟩
      intro d hd
      by_cases hdn : d.1 ≤ now
      · exact hq d (List.mem_filter.2 ⟨hd, by simpa using hdn⟩)
      · simp only [DEBOUNCE_DELAY] at hdue
        simp only [not_and]; intro _; omega
  refine ⟨?_, settled, ?_⟩
  · intro c hc now hdue hlatest
    have hcf : c ∈ (changesOf calls).filter (fun call => decide (call.1 ≤ now)) :=
      List.mem_filter.2 ⟨hc, by simp; omega⟩
    obtain ⟨pre, hpre⟩ := Chronological.eq_concat_of_latest _ (hsub now) c hcf (by
      intro d hd
      have hd2 := List.mem_filter.1 hd
      have : d.1 ≤ now := by simpa using hd2.2
      rcases hlatest d hd2.1 with h1 | h1
      · exact h1
      · omega)
    obtain ⟨t, v⟩ := c
    rw [debouncedSearchTermAt_eq calls now h, hpre, fireDue_runChanges_concat]
    simp only [DEBOUNCE_DELAY]
    simp only at hdue
    simp [hdue]
  · intro v hv hfollowed now heq
    rcases settled now with h0 | ⟨c, hc, hval, _, hq⟩
    · exact hv (heq ▸ h0)
    · obtain ⟨d, hd, hwin⟩ := hfollowed c hc (hval ▸ heq)
      exact hq d hd hwin

/-- C9 at the calls `bat` at 0 ms and `batman` at 200 ms: both are changes, at
700 ms `debouncedSearchTerm` is `batman`, and it is never `bat` (shown here at
100, 499, 500, 699 and 700 ms).  And at the calls `bat` at 0 ms, `bat` again at
300 ms and `batman` at 600 ms: the second call is no change, so `bat` is shown
at 500 ms. -/
theorem debounce_emits_settled_values_witness :
    Chronological [(0, bat), (200, batman)] ∧
    changesOf [(0, bat), (200, batman)] = [(0, bat), (200, batman)] ∧
    debouncedSearchTermAt [(0, bat), (200, batman)] 700 = batman ∧
    debouncedSearchTermAt [(0, bat), (200, batman)] 100 ≠ bat ∧
    debouncedSearchTermAt [(0, bat), (200, batman)] 499 ≠ bat ∧
    debouncedSearchTermAt [(0, bat), (200, batman)] 500 ≠ bat ∧
    debouncedSearchTermAt [(0, bat), (200, batman)] 699 ≠ bat ∧
    debouncedSearchTermAt [(0, bat), (200, batman)] 700 ≠ bat ∧
    changesOf [(0, bat), (300, bat), (600, batman)] = [(0, bat), (600, batman)] ∧
    debouncedSearchTermAt [(0, bat), (300, bat), (600, batman)] 500 = bat :=
  have h := debounce_emits_settled_values [(0, bat), (200, batman)] (by decide)
  have never := h.2.2 bat (by decide) (by decide)
  have g := debounce_emits_settled_values [(0, bat), (300, bat), (600, batman)] (by decide)
  ⟨by decide, by decide, h.1 (200, batman) (by decide) 700 (by decide) (by decide),
    never 100, never 499, never 500, never 699, never 700,
    by decide, g.1 (0, bat) (by decide) 500 (by decide) (by decide)⟩

end MovieSite
